import Mathlib

/-!
Verification development for the CT-vs-MRI analyzer pipeline.

The repository's `src/` contains the caller (`components/Upload.tsx`) of the
core pipeline; the library modules `src/lib/dicom.ts` (tag reader, DICOM
decoder, `isLikelyDicom`, `parseDicom`) and `src/lib/analysis.ts`
(`normalizeDicomToGrayscale8`, `computeFeaturesFromImageData`,
`classifyFeatures`) are not present in `src/`.  Where a definition embeds
code visible in `Upload.tsx` this is noted; the missing library functions
are modelled from the specification (see the `Modelled from the spec:` doc
comments).  Byte buffers are `List Nat` with each entry a byte value,
rationals model IEEE float64 arithmetic exactly, and reals model the
classifier's transcendental arithmetic.
-/

set_option autoImplicit false

namespace CTMRI

/-- Reads a little-endian unsigned 16-bit value at offset `o`, failing when
either byte is out of range. -/
def readU16LE (b : List Nat) (o : Nat) : Option Nat :=
  match b.get? o, b.get? (o + 1) with
  | some x, some y => some (x + 256 * y)
  | _, _ => none

/-- Reads a little-endian unsigned 32-bit value at offset `o`. -/
def readU32LE (b : List Nat) (o : Nat) : Option Nat :=
  match readU16LE b o, readU16LE b (o + 2) with
  | some lo, some hi => some (lo + 65536 * hi)
  | _, _ => none

/-- Modelled from the spec: `isLikelyDicom` from the missing
`src/lib/dicom.ts` — the cheap magic-byte probe that reports a buffer as
DICOM exactly when the four bytes at offsets 128..131 are the ASCII
literal `D,I,C,M` (68, 73, 67, 77). -/
def isLikelyDicom (b : List Nat) : Bool :=
  (b.get? 128 == some 68) && (b.get? 129 == some 73) &&
    (b.get? 130 == some 67) && (b.get? 131 == some 77)

/-- Photometric interpretation of the decoded samples. -/
inductive Photometric
  | monochrome1
  | monochrome2
  | other
  deriving DecidableEq

/-- Error kinds surfaced by the decoder, per the error-handling design. -/
inductive DecodeError
  | truncatedStream
  | unsupportedEncoding
  | missingPixelData
  | invalidDimensions
  | notDicom
  deriving DecidableEq

/-- ASCII decimal digit test on a byte. -/
def isDigitByte (c : Nat) : Bool := 48 ≤ c && c ≤ 57

/-- Value of a list of ASCII digit bytes read in base 10. -/
def digitsVal (l : List Nat) : Nat :=
  l.foldl (fun acc c => 10 * acc + (c - 48)) 0

/-- Parses an unsigned decimal string (integer part, optional fraction)
into an exact rational. -/
def parseUnsignedDS (v : List Nat) : Option ℚ :=
  let ip := v.takeWhile isDigitByte
  let rest := v.dropWhile isDigitByte
  if ip.isEmpty then none
  else
    match rest with
    | [] => some (digitsVal ip : ℚ)
    | 46 :: fp =>
      if fp.all isDigitByte && !fp.isEmpty then
        some ((digitsVal ip : ℚ) + (digitsVal fp : ℚ) / ((10 : ℚ) ^ fp.length))
      else none
    | _ => none

/-- Modelled from the spec: parsing of a DICOM decimal-string (DS) value —
space and NUL padding is ignored, an optional sign precedes the digits.
Exponent notation and multi-valued strings are out of the modelled
fragment and yield `none` (so the record keeps its default). -/
def parseDS (v : List Nat) : Option ℚ :=
  let w := v.filter (fun c => c != 32 && c != 0)
  match w with
  | 45 :: rest => (parseUnsignedDS rest).map (fun q => -q)
  | 43 :: rest => parseUnsignedDS rest
  | _ => parseUnsignedDS w

/-- Bytes of a padded DICOM string value rendered as a trimmed `String`. -/
def asTrimmedString (v : List Nat) : String :=
  (String.mk ((v.filter (fun c => c != 0)).map Char.ofNat)).trim

/-- Photometric interpretation parsed from a CS string value. -/
def parsePhotometric (v : List Nat) : Photometric :=
  let s := asTrimmedString v
  if s = "MONOCHROME1" then Photometric.monochrome1
  else if s = "MONOCHROME2" then Photometric.monochrome2
  else Photometric.other

/-- Partial record accumulated while scanning the element stream; all
fields start absent and are filled when the matching tag is seen. -/
structure ScanState where
  rows : Option Nat
  columns : Option Nat
  bitsAllocated : Option Nat
  bitsStored : Option Nat
  pixelRepresentation : Option Nat
  samplesPerPixel : Option Nat
  photometric : Option Photometric
  rescaleSlope : Option ℚ
  rescaleIntercept : Option ℚ
  windowCenter : Option ℚ
  windowWidth : Option ℚ
  modality : Option String
  tsUID : Option String
  numberOfFrames : Option Nat
  pixelData : Option (List Nat)
  deriving DecidableEq

/-- The empty scan state, before any element has been read. -/
def initScanState : ScanState :=
  { rows := none, columns := none, bitsAllocated := none, bitsStored := none,
    pixelRepresentation := none, samplesPerPixel := none, photometric := none,
    rescaleSlope := none, rescaleIntercept := none, windowCenter := none,
    windowWidth := none, modality := none, tsUID := none,
    numberOfFrames := none, pixelData := none }

/-- Modelled from the spec: the decoder's tag dispatch — each recognized
(group, element) pair populates the corresponding record field from the
element's value bytes; unrecognized tags are skipped without failing.
Tags are written in decimal: group 0x0028 = 40, 0x7FE0 = 32736, etc. -/
def applyElement (s : ScanState) (group elem : Nat) (v : List Nat) : ScanState :=
  if group = 40 && elem = 16 then { s with rows := readU16LE v 0 }
  else if group = 40 && elem = 17 then { s with columns := readU16LE v 0 }
  else if group = 40 && elem = 256 then { s with bitsAllocated := readU16LE v 0 }
  else if group = 40 && elem = 257 then { s with bitsStored := readU16LE v 0 }
  else if group = 40 && elem = 259 then { s with pixelRepresentation := readU16LE v 0 }
  else if group = 40 && elem = 2 then { s with samplesPerPixel := readU16LE v 0 }
  else if group = 40 && elem = 4 then { s with photometric := some (parsePhotometric v) }
  else if group = 40 && elem = 4179 then { s with rescaleSlope := parseDS v }
  else if group = 40 && elem = 4178 then { s with rescaleIntercept := parseDS v }
  else if group = 40 && elem = 4176 then { s with windowCenter := parseDS v }
  else if group = 40 && elem = 4177 then { s with windowWidth := parseDS v }
  else if group = 8 && elem = 96 then { s with modality := some (asTrimmedString v) }
  else if group = 2 && elem = 16 then { s with tsUID := some (asTrimmedString v) }
  else if group = 40 && elem = 8 then
    { s with numberOfFrames := (parseDS v).map (fun q => (Int.floor q).toNat) }
  else if group = 32736 && elem = 16 then { s with pixelData := some v }
  else s

/-- VR codes using the long (reserved + 4-byte length) layout: OB, OW, OF,
SQ, UT, UN, given by their two ASCII bytes. -/
def isLongFormVR (v1 v2 : Nat) : Bool :=
  (v1 == 79 && (v2 == 66 || v2 == 87 || v2 == 70)) ||
    (v1 == 83 && v2 == 81) || (v1 == 85 && (v2 == 84 || v2 == 78))

/-- Searches forward from offset `q` for the sequence-delimiter tag
(0xFFFE, 0xE0DD), returning the offset where it starts. -/
def findDelim (b : List Nat) : Nat → Nat → Option Nat
  | 0, _ => none
  | Nat.succ fuel, q =>
    if b.length < q + 8 then none
    else if (readU16LE b q == some 65534) && (readU16LE b (q + 2) == some 57565) then
      some q
    else findDelim b fuel (q + 1)

/-- Modelled from the spec: the tag reader's forward scan — at each offset
read the 2-byte group and element, the 2-byte VR, then either a 2-byte
length or (for long-form VRs) 2 reserved bytes and a 4-byte length; an
undefined length (all bits set) on the pixel-data tag means encapsulated
pixel data and fails, on any other tag the reader skips past the nested
sequence terminator; any read beyond the buffer fails with
`truncatedStream`.  Fuel bounds the recursion by the buffer length. -/
def scanLoop (b : List Nat) : Nat → Nat → ScanState → Except DecodeError ScanState
  | 0, _, s => Except.ok s
  | Nat.succ fuel, o, s =>
    if b.length ≤ o then Except.ok s
    else
      match readU16LE b o, readU16LE b (o + 2), b.get? (o + 4), b.get? (o + 5) with
      | some group, some elem, some v1, some v2 =>
        if isLongFormVR v1 v2 then
          match readU32LE b (o + 8) with
          | some len =>
            if len = 4294967295 then
              if group = 32736 && elem = 16 then
                Except.error DecodeError.unsupportedEncoding
              else
                match findDelim b (b.length + 1) (o + 12) with
                | some q => scanLoop b fuel (q + 8) s
                | none => Except.error DecodeError.truncatedStream
            else if b.length < o + 12 + len then
              Except.error DecodeError.truncatedStream
            else
              scanLoop b fuel (o + 12 + len)
                (applyElement s group elem ((b.drop (o + 12)).take len))
          | none => Except.error DecodeError.truncatedStream
        else
          match readU16LE b (o + 6) with
          | some len =>
            if b.length < o + 8 + len then
              Except.error DecodeError.truncatedStream
            else
              scanLoop b fuel (o + 8 + len)
                (applyElement s group elem ((b.drop (o + 8)).take len))
          | none => Except.error DecodeError.truncatedStream
      | _, _, _, _ => Except.error DecodeError.truncatedStream

/-- Modelled from the spec: the full element scan, starting just after the
128-byte preamble and 4-byte magic. -/
def scanDicom (b : List Nat) : Except DecodeError ScanState :=
  scanLoop b (b.length + 1) 132 initScanState

/-- The decoded DICOM record, with spec defaults applied (slope 1,
intercept 0, 8 bits, one sample per pixel, MONOCHROME2).  `tsUID` is the
`transferSyntax` field of the source record. -/
structure DicomRecord where
  rows : Nat
  columns : Nat
  bitsAllocated : Nat
  pixelRepresentationSigned : Bool
  samplesPerPixel : Nat
  photometric : Photometric
  rescaleSlope : ℚ
  rescaleIntercept : ℚ
  windowCenter : Option ℚ
  windowWidth : Option ℚ
  modality : Option String
  tsUID : Option String
  numberOfFrames : Option Nat
  pixelData : List Nat
  deriving DecidableEq

/-- Bytes the pixel buffer must hold:
`rows * columns * samplesPerPixel * ceil(bitsAllocated / 8)`. -/
def requiredPixelBytes (s : ScanState) : Nat :=
  s.rows.getD 0 * s.columns.getD 0 * s.samplesPerPixel.getD 1 *
    ((s.bitsAllocated.getD 8 + 7) / 8)

/-- Modelled from the spec: post-scan validation — dimensions must be
present and positive (else `invalidDimensions`), the pixel buffer must be
present and large enough (else `missingPixelData`); only then is the
record assembled, with defaults for the absent optional fields. -/
def validateRecord (s : ScanState) : Except DecodeError DicomRecord :=
  if s.rows.getD 0 = 0 ∨ s.columns.getD 0 = 0 then
    Except.error DecodeError.invalidDimensions
  else
    match s.pixelData with
    | none => Except.error DecodeError.missingPixelData
    | some pd =>
      if pd.length < requiredPixelBytes s then
        Except.error DecodeError.missingPixelData
      else
        Except.ok
          { rows := s.rows.getD 0, columns := s.columns.getD 0,
            bitsAllocated := s.bitsAllocated.getD 8,
            pixelRepresentationSigned := s.pixelRepresentation.getD 0 == 1,
            samplesPerPixel := s.samplesPerPixel.getD 1,
            photometric := s.photometric.getD Photometric.monochrome2,
            rescaleSlope := s.rescaleSlope.getD 1,
            rescaleIntercept := s.rescaleIntercept.getD 0,
            windowCenter := s.windowCenter, windowWidth := s.windowWidth,
            modality := s.modality, tsUID := s.tsUID,
            numberOfFrames := s.numberOfFrames, pixelData := pd }

/-- Modelled from the spec: `parseDicom` from the missing
`src/lib/dicom.ts` — verify the magic, scan every element, validate, and
either return the whole record or a tagged error (never a partial
record). -/
def parseDicom (buf : List Nat) : Except DecodeError DicomRecord :=
  if isLikelyDicom buf then (scanDicom buf).bind validateRecord
  else Except.error DecodeError.notDicom

/-- Errors surfaced by the intensity normalizer. -/
inductive NormError
  | unsupportedBitDepth
  deriving DecidableEq

/-- Parameter set of the normalization algorithm as specified: geometry,
declared sample layout, photometric interpretation, rescale transform and
optional display window. -/
structure NormalizeParams where
  rows : Nat
  columns : Nat
  bitsAllocated : Nat
  pixelRepresentationSigned : Bool
  photometric : Photometric
  rescaleSlope : ℚ
  rescaleIntercept : ℚ
  windowCenter : Option ℚ
  windowWidth : Option ℚ
  deriving DecidableEq

/-- 8-bit samples: each byte is one sample, two's complement when
signed. -/
def toSamples8 (signed : Bool) (bytes : List Nat) : List Int :=
  bytes.map (fun b => if signed && decide (128 ≤ b) then (b : Int) - 256 else (b : Int))

/-- Pairs consecutive bytes little-endian into 16-bit words. -/
def pairBytesLE : List Nat → List Nat
  | lo :: hi :: rest => (lo + 256 * hi) :: pairBytesLE rest
  | _ => []

/-- 16-bit samples: little-endian byte pairs, two's complement when
signed. -/
def toSamples16 (signed : Bool) (bytes : List Nat) : List Int :=
  (pairBytesLE bytes).map
    (fun v => if signed && decide (32768 ≤ v) then (v : Int) - 65536 else (v : Int))

/-- Modelled from the spec: step (1) of the normalizer — reinterpret the
pixel bytes as `rows*columns` samples of the declared width and
signedness; widths other than 8 and 16 fail with
`unsupportedBitDepth`. -/
def reinterpretSamples (p : NormalizeParams) (bytes : List Nat) :
    Except NormError (List Int) :=
  if p.bitsAllocated = 8 then
    Except.ok ((toSamples8 p.pixelRepresentationSigned bytes).take (p.rows * p.columns))
  else if p.bitsAllocated = 16 then
    Except.ok ((toSamples16 p.pixelRepresentationSigned bytes).take (p.rows * p.columns))
  else Except.error NormError.unsupportedBitDepth

/-- Step (2): the linear rescale `sample * slope + intercept`. -/
def rescaleValue (p : NormalizeParams) (s : Int) : ℚ :=
  (s : ℚ) * p.rescaleSlope + p.rescaleIntercept

/-- Minimum of a list of rationals (0 for the empty list). -/
def listMinQ : List ℚ → ℚ
  | [] => 0
  | x :: xs => xs.foldl min x

/-- Maximum of a list of rationals (0 for the empty list). -/
def listMaxQ : List ℚ → ℚ
  | [] => 0
  | x :: xs => xs.foldl max x

/-- Step (3): the display window — the given center/width when both are
present, otherwise derived from the rescaled values' minimum and maximum
with a width floor of 1. -/
def windowOf (p : NormalizeParams) (vals : List ℚ) : ℚ × ℚ :=
  match p.windowCenter, p.windowWidth with
  | some c, some w => (c, w)
  | _, _ =>
    let lo := listMinQ vals
    let hi := listMaxQ vals
    ((lo + hi) / 2, max (hi - lo) 1)

/-- Clamps `x` into `[lo, hi]`. -/
def clampQ (lo hi x : ℚ) : ℚ := min hi (max lo x)

/-- Rounds a clamped intensity to its byte, half away up. -/
def roundByte (x : ℚ) : Nat := (Int.floor (x + 1 / 2)).toNat

/-- Step (4): map linearly so that `center - width/2` goes to 0 and
`center + width/2` goes to 255, clamping outside that range, then take
the byte. -/
def mapValue (c w v : ℚ) : Nat :=
  roundByte (clampQ 0 255 ((v - (c - w / 2)) * 255 / w))

/-- Steps (2)-(5) applied to the reinterpreted samples: rescale, window,
map each value to a byte, and invert the bytes under MONOCHROME1. -/
def grayscaleOfSamples (p : NormalizeParams) (samples : List Int) : List Nat :=
  let vals := samples.map (rescaleValue p)
  let cw := windowOf p vals
  let gray := vals.map (fun v => mapValue cw.1 cw.2 v)
  match p.photometric with
  | Photometric.monochrome1 => gray.map (fun g => 255 - g)
  | _ => gray

/-- Modelled from the spec: the normalization algorithm of section 4.3
word for word — its output is the flat 8-bit grayscale raster of
`rows*columns` bytes (the `GrayscaleRaster` of the spec's data model).
This is the spec's description of `normalizeDicomToGrayscale8`, kept
separate so it can be compared with the output shape the caller in
`Upload.tsx` actually consumes. -/
def normalizeSpecGrayscale (p : NormalizeParams) (bytes : List Nat) :
    Except NormError (List Nat) :=
  (reinterpretSamples p bytes).map (grayscaleOfSamples p)

/-- Expands one grayscale byte to the four RGBA bytes R=G=B=value,
A=255. -/
def rgbaExpand : List Nat → List Nat
  | [] => []
  | g :: rest => g :: g :: g :: 255 :: rgbaExpand rest

/-- Modelled from the spec and the call site: `normalizeDicomToGrayscale8`
from the missing `src/lib/analysis.ts`.  Its result is handed directly to
`new ImageData(rgba, columns, rows)` at `Upload.tsx:59`, which the
platform only accepts when the buffer holds `4 * columns * rows` bytes —
so the function must deliver the RGBA expansion itself, i.e. the spec's
grayscale raster with every byte expanded to R=G=B=value, A=255. -/
def normalizeDicomToGrayscale8 (p : NormalizeParams) (bytes : List Nat) :
    Except NormError (List Nat) :=
  (normalizeSpecGrayscale p bytes).map rgbaExpand

/-- A decoded platform image: width, height and flat RGBA data. -/
structure ImageDataM where
  width : Nat
  height : Nat
  data : List Nat
  deriving DecidableEq

/-- Model of the platform `new ImageData(data, width, height)` constructor
used at `Upload.tsx:59`: it succeeds only when the buffer length is
exactly `4 * width * height` with positive dimensions, and fails (throws)
otherwise. -/
def mkImageData (data : List Nat) (w h : Nat) : Option ImageDataM :=
  if data.length = 4 * w * h ∧ 0 < w ∧ 0 < h then some ⟨w, h, data⟩ else none

/-- The object literal passed to `normalizeDicomToGrayscale8` at
`Upload.tsx:46-53`: exactly rows, columns, rescaleSlope,
rescaleIntercept, windowCenter and windowWidth from the decoded record —
no bitsAllocated, pixelRepresentation or photometricInterpretation. -/
structure NormalizeCallArgs where
  rows : Nat
  columns : Nat
  rescaleSlope : ℚ
  rescaleIntercept : ℚ
  windowCenter : Option ℚ
  windowWidth : Option ℚ
  deriving DecidableEq

/-- Embeds `Upload.tsx:46-53`: builds the argument object for the
normalizer call from the decoded record. -/
def mkNormalizeCallArgs (info : DicomRecord) : NormalizeCallArgs :=
  { rows := info.rows, columns := info.columns,
    rescaleSlope := info.rescaleSlope, rescaleIntercept := info.rescaleIntercept,
    windowCenter := info.windowCenter, windowWidth := info.windowWidth }

/-- A 1x1 unsigned 8-bit parameter set with identity rescale and derived
window, used as a concrete probe of the normalizer's output shape. -/
def c1params : NormalizeParams :=
  { rows := 1, columns := 1, bitsAllocated := 8,
    pixelRepresentationSigned := false, photometric := Photometric.monochrome2,
    rescaleSlope := 1, rescaleIntercept := 0,
    windowCenter := none, windowWidth := none }

/-- A concrete decoded record with 8-bit unsigned samples. -/
def c5recA : DicomRecord :=
  { rows := 2, columns := 2, bitsAllocated := 8,
    pixelRepresentationSigned := false, samplesPerPixel := 1,
    photometric := Photometric.monochrome2,
    rescaleSlope := 1, rescaleIntercept := 0,
    windowCenter := none, windowWidth := none,
    modality := none, tsUID := none, numberOfFrames := none,
    pixelData := [0, 0, 0, 0] }

/-- The same record with a declared 32-bit signed sample layout. -/
def c5recB : DicomRecord :=
  { c5recA with bitsAllocated := 32, pixelRepresentationSigned := true }

/-- A 1x2 parameter set with negative rescale slope. -/
def c7neg : NormalizeParams :=
  { rows := 1, columns := 2, bitsAllocated := 8,
    pixelRepresentationSigned := false, photometric := Photometric.monochrome2,
    rescaleSlope := -1, rescaleIntercept := 0,
    windowCenter := none, windowWidth := none }

/-- The spec's section-8 scenario parameters: slope 2, intercept -50,
derived window. -/
def c7pos : NormalizeParams :=
  { rows := 1, columns := 2, bitsAllocated := 8,
    pixelRepresentationSigned := false, photometric := Photometric.monochrome2,
    rescaleSlope := 2, rescaleIntercept := -50,
    windowCenter := none, windowWidth := none }

/-- The classification label. -/
inductive Label
  | CT
  | MRI
  deriving DecidableEq

/-- The classifier's result: a label and a CT/MRI probability pair. -/
structure ClassificationResult where
  label : Label
  probabilityCT : ℝ
  probabilityMRI : ℝ

/-- The logistic function. -/
noncomputable def sigmoid (x : ℝ) : ℝ := 1 / (1 + Real.exp (-x))

/-- Modelled from the spec: `classifyFeatures` from the missing
`src/lib/analysis.ts` — the deterministic weighted-sum model
`score = bias + Σ weight_i * feature_i`, `probabilityCT = sigmoid score`,
`probabilityMRI = 1 - probabilityCT`, label CT exactly when
`probabilityCT ≥ 1/2` (so a tie at 1/2 goes to CT).  The spec leaves the
fixed weight constants as replaceable configuration, so they are
parameters here and every theorem holds for all of them. -/
noncomputable def classifyFeatures (w : Fin 5 → ℝ) (bias : ℝ)
    (f : Fin 5 → ℝ) : ClassificationResult :=
  let p := sigmoid (bias + ∑ i, w i * f i)
  { label := if 1 / 2 ≤ p then Label.CT else Label.MRI,
    probabilityCT := p, probabilityMRI := 1 - p }

/-- Intensity of pixel `k` of an RGBA image: its red channel (the upstream
normalizer makes R=G=B). -/
def grayByte (img : ImageDataM) (k : Nat) : Nat := img.data.getD (4 * k) 0

/-- Number of pixels of an image. -/
def pixelCount (img : ImageDataM) : Nat := img.width * img.height

/-- Mean intensity on the 0..255 scale. -/
noncomputable def meanIntensity (img : ImageDataM) : ℝ :=
  (∑ k ∈ Finset.range (pixelCount img), (grayByte img k : ℝ)) /
    (pixelCount img : ℝ)

/-- Intensity standard deviation. -/
noncomputable def stdIntensity (img : ImageDataM) : ℝ :=
  Real.sqrt ((∑ k ∈ Finset.range (pixelCount img),
    ((grayByte img k : ℝ) - meanIntensity img) ^ 2) / (pixelCount img : ℝ))

/-- Number of pixels falling in histogram bin `i` of 32 (8 intensity
levels per bin). -/
def binCount (img : ImageDataM) (i : Nat) : Nat :=
  ((List.range (pixelCount img)).filter (fun k => grayByte img k / 8 == i)).length

/-- Histogram entropy over 32 bins (in bits, with the 0 log 0 = 0
convention). -/
noncomputable def histEntropy (img : ImageDataM) : ℝ :=
  ∑ i ∈ Finset.range 32,
    (fun p => if p = 0 then 0 else -(p * Real.logb 2 p))
      ((binCount img i : ℝ) / (pixelCount img : ℝ))

/-- Local gradient magnitude at (x, y): absolute forward differences to
the right and downward neighbours (0 at the borders). -/
def gradMagAt (img : ImageDataM) (x y : Nat) : Nat :=
  let c := grayByte img (y * img.width + x)
  let r := if x + 1 < img.width then grayByte img (y * img.width + x + 1) else c
  let d := if y + 1 < img.height then grayByte img ((y + 1) * img.width + x) else c
  ((r : Int) - (c : Int)).natAbs + ((d : Int) - (c : Int)).natAbs

/-- Fraction of pixels whose gradient magnitude exceeds an adaptive
threshold of half the intensity standard deviation. -/
noncomputable def edgeDensity (img : ImageDataM) : ℝ :=
  (∑ y ∈ Finset.range img.height, ∑ x ∈ Finset.range img.width,
    if stdIntensity img / 2 < (gradMagAt img x y : ℝ) then (1 : ℝ) else 0) /
    (pixelCount img : ℝ)

/-- The minimum intensity of the image (255 for an empty raster). -/
def minGray (img : ImageDataM) : Nat :=
  ((List.range (pixelCount img)).map (grayByte img)).foldl min 255

/-- Number of near-minimum-intensity (background/air) pixels: within 8
levels of the minimum. -/
def backgroundCount (img : ImageDataM) : Nat :=
  ((List.range (pixelCount img)).filter
    (fun k => grayByte img k ≤ minGray img + 8)).length

/-- Background/air fraction. -/
noncomputable def backgroundFraction (img : ImageDataM) : ℝ :=
  (backgroundCount img : ℝ) / (pixelCount img : ℝ)

/-- Modelled from the spec: `computeFeaturesFromImageData` from the
missing `src/lib/analysis.ts` — the fixed-order statistical/textural
fingerprint of section 4.4: normalized mean, normalized standard
deviation, 32-bin histogram entropy, edge density with an adaptive
std-tied threshold, and background/air fraction (the optional symmetry
feature is not included).  All features are ratios, independent of the
raster's absolute pixel count. -/
noncomputable def computeFeaturesFromImageData (img : ImageDataM) : Fin 5 → ℝ :=
  ![meanIntensity img / 255, stdIntensity img / 255, histEntropy img,
    edgeDensity img, backgroundFraction img]

/-- Normalization parameters drawn from a decoded record, per the spec's
data flow from decoder to normalizer. -/
def paramsOfRecord (rec : DicomRecord) : NormalizeParams :=
  { rows := rec.rows, columns := rec.columns, bitsAllocated := rec.bitsAllocated,
    pixelRepresentationSigned := rec.pixelRepresentationSigned,
    photometric := rec.photometric, rescaleSlope := rec.rescaleSlope,
    rescaleIntercept := rec.rescaleIntercept, windowCenter := rec.windowCenter,
    windowWidth := rec.windowWidth }

/-- An error anywhere in the core pipeline. -/
inductive PipeError
  | decode (e : DecodeError)
  | norm (e : NormError)
  deriving DecidableEq

/-- The four core stages composed on raw bytes, per the spec's data flow:
decode, normalize, extract, classify; any stage error aborts the whole
run. -/
noncomputable def corePipeline (w : Fin 5 → ℝ) (bias : ℝ) (bytes : List Nat) :
    Except PipeError ClassificationResult :=
  match parseDicom bytes with
  | Except.error e => Except.error (PipeError.decode e)
  | Except.ok rec =>
    match normalizeDicomToGrayscale8 (paramsOfRecord rec) rec.pixelData with
    | Except.error e => Except.error (PipeError.norm e)
    | Except.ok rgba =>
      Except.ok (classifyFeatures w bias
        (computeFeaturesFromImageData ⟨rec.columns, rec.rows, rgba⟩))

/-- The metadata map assembled for display at `Upload.tsx:77-87`: exactly
the nine fields modality, transferSyntax (`tsUID` here), rows, columns,
windowCenter, windowWidth, rescaleSlope, rescaleIntercept and frames. -/
structure MetaMap where
  modality : Option String
  tsUID : Option String
  rows : Nat
  columns : Nat
  windowCenter : Option ℚ
  windowWidth : Option ℚ
  rescaleSlope : ℚ
  rescaleIntercept : ℚ
  frames : Option Nat
  deriving DecidableEq

/-- The result object handed to the presentation layer at
`Upload.tsx:72-88`. -/
structure UploadResult where
  label : Label
  probabilityCT : ℝ
  probabilityMRI : ℝ
  modality : Option String
  meta : MetaMap

/-- Embeds `Upload.tsx:77-87`: the metadata map of a decoded record. -/
def metaOf (info : DicomRecord) : MetaMap :=
  { modality := info.modality, tsUID := info.tsUID,
    rows := info.rows, columns := info.columns,
    windowCenter := info.windowCenter, windowWidth := info.windowWidth,
    rescaleSlope := info.rescaleSlope, rescaleIntercept := info.rescaleIntercept,
    frames := info.numberOfFrames }

/-- Embeds `Upload.tsx:69-88`: features are computed from the analyzed
raster alone, classified, and the result object combines the
classification with the record's metadata map. -/
noncomputable def buildDicomResult (w : Fin 5 → ℝ) (bias : ℝ)
    (info : DicomRecord) (analyzed : ImageDataM) : UploadResult :=
  let features := computeFeaturesFromImageData analyzed
  let c := classifyFeatures w bias features
  { label := c.label, probabilityCT := c.probabilityCT,
    probabilityMRI := c.probabilityMRI, modality := info.modality,
    meta := metaOf info }

/-- Embeds `Upload.tsx:42/93`:
`scale = Math.min(1, maxDim / Math.max(w, h))`, with the convention that
a zero-size image keeps scale 1 (in the source `maxDim / 0` is Infinity
and the minimum is 1). -/
def resizeScale (maxDim w h : Nat) : ℚ :=
  if max w h = 0 then 1 else min 1 ((maxDim : ℚ) / (max w h : ℚ))

/-- Embeds `Upload.tsx:43/94`:
`width = Math.max(1, Math.floor(w * scale))`. -/
def resizedWidth (maxDim w h : Nat) : Nat :=
  max 1 (Int.floor ((w : ℚ) * resizeScale maxDim w h)).toNat

/-- Embeds `Upload.tsx:44/95`:
`height = Math.max(1, Math.floor(h * scale))`. -/
def resizedHeight (maxDim w h : Nat) : Nat :=
  max 1 (Int.floor ((h : ℚ) * resizeScale maxDim w h)).toNat

end CTMRI

namespace CTMRI

/-- The RGBA expansion is four bytes per grayscale byte. -/
theorem rgbaExpand_length (l : List Nat) : (rgbaExpand l).length = 4 * l.length := by
  induction l with
  | nil => rfl
  | cons g rest ih =>
    simp only [rgbaExpand, List.length_cons, ih]
    omega

/-- Each grayscale byte reappears in the RGBA expansion as the three color
channels of its pixel, followed by an opaque alpha byte. -/
theorem rgbaExpand_get_quad (l : List Nat) (k g : Nat) (h : l.get? k = some g) :
    (rgbaExpand l).get? (4 * k) = some g ∧
    (rgbaExpand l).get? (4 * k + 1) = some g ∧
    (rgbaExpand l).get? (4 * k + 2) = some g ∧
    (rgbaExpand l).get? (4 * k + 3) = some 255 := by
  induction l generalizing k with
  | nil => simp at h
  | cons a rest ih =>
    cases k with
    | zero =>
      simp only [List.get?_cons_zero, Option.some.injEq] at h
      subst h
      exact ⟨rfl, rfl, rfl, rfl⟩
    | succ k' =>
      obtain ⟨h0, h1, h2, h3⟩ := ih k' (by simpa using h)
      have hx : rgbaExpand (a :: rest) = a :: a :: a :: 255 :: rgbaExpand rest := rfl
      refine ⟨?_, ?_, ?_, ?_⟩
      · have e : 4 * (k' + 1) = 4 * k' + 1 + 1 + 1 + 1 := by ring
        rw [hx, e, List.get?_cons_succ, List.get?_cons_succ, List.get?_cons_succ,
          List.get?_cons_succ]
        exact h0
      · have e : 4 * (k' + 1) + 1 = 4 * k' + 1 + 1 + 1 + 1 + 1 := by ring
        rw [hx, e, List.get?_cons_succ, List.get?_cons_succ, List.get?_cons_succ,
          List.get?_cons_succ]
        exact h1
      · have e : 4 * (k' + 1) + 2 = 4 * k' + 2 + 1 + 1 + 1 + 1 := by ring
        rw [hx, e, List.get?_cons_succ, List.get?_cons_succ, List.get?_cons_succ,
          List.get?_cons_succ]
        exact h2
      · have e : 4 * (k' + 1) + 3 = 4 * k' + 3 + 1 + 1 + 1 + 1 := by ring
        rw [hx, e, List.get?_cons_succ, List.get?_cons_succ, List.get?_cons_succ,
          List.get?_cons_succ]
        exact h3

/-- Concrete evaluation: on the 1x1 probe with stored value 7, identity
rescale and min/max window the spec grayscale raster is the single
mid-scale byte 128. -/
theorem c1eval_gray : normalizeSpecGrayscale c1params [7] = Except.ok [128] := by
  norm_num [normalizeSpecGrayscale, reinterpretSamples, c1params, toSamples8,
    grayscaleOfSamples, rescaleValue, windowOf, listMinQ, listMaxQ, mapValue,
    clampQ, roundByte, min_def, max_def, Except.map]
  decide

/-- Concrete evaluation: the code's normalizer expands that byte to one
RGBA pixel. -/
theorem c1eval_rgba :
    normalizeDicomToGrayscale8 c1params [7] = Except.ok [128, 128, 128, 255] := by
  rw [normalizeDicomToGrayscale8, c1eval_gray]
  rfl

/-- Byte rounding is monotone. -/
theorem roundByte_mono {x y : ℚ} (h : x ≤ y) : roundByte x ≤ roundByte y := by
  unfold roundByte
  exact Int.toNat_le_toNat (Int.floor_le_floor (by linarith))

/-- Clamping to a fixed interval is monotone. -/
theorem clampQ_mono (lo hi : ℚ) {x y : ℚ} (h : x ≤ y) :
    clampQ lo hi x ≤ clampQ lo hi y :=
  min_le_min le_rfl (max_le_max le_rfl h)

/-- The window map is monotone in the intensity whenever the window width
is positive. -/
theorem mapValue_mono {c w v v' : ℚ} (hw : 0 < w) (h : v ≤ v') :
    mapValue c w v ≤ mapValue c w v' := by
  unfold mapValue
  apply roundByte_mono
  apply clampQ_mono
  exact (div_le_div_right hw).mpr
    (mul_le_mul_of_nonneg_right (by linarith) (by norm_num))

/-- The derived (min/max) window always has positive width, thanks to the
floor of 1. -/
theorem windowOf_default_pos (p : NormalizeParams) (vals : List ℚ)
    (hp : p.windowCenter = none) : 0 < (windowOf p vals).2 := by
  have hval : (windowOf p vals).2 = max (listMaxQ vals - listMinQ vals) 1 := by
    unfold windowOf
    rw [hp]
  rw [hval]
  exact lt_of_lt_of_le one_pos (le_max_right _ _)

/-- The scale factor is never above 1. -/
theorem resizeScale_le_one (maxDim w h : Nat) : resizeScale maxDim w h ≤ 1 := by
  unfold resizeScale
  split_ifs with hm
  · exact le_refl 1
  · exact min_le_left _ _

/-- The scale factor is nonnegative. -/
theorem resizeScale_nonneg (maxDim w h : Nat) : 0 ≤ resizeScale maxDim w h := by
  unfold resizeScale
  split_ifs with hm
  · norm_num
  · exact le_min (by norm_num) (div_nonneg (by positivity) (by positivity))

/-- Any dimension bounded by the larger one scales to at most `maxDim`. -/
theorem resize_dim_mul_le (maxDim w h d : Nat) (hd : d ≤ max w h) :
    (d : ℚ) * resizeScale maxDim w h ≤ (maxDim : ℚ) := by
  unfold resizeScale
  split_ifs with hm
  · have hw : d = 0 := by omega
    subst hw
    simp
  · have hmaxpos : 0 < (max w h : ℚ) := by
      have hp : 0 < max w h := Nat.pos_of_ne_zero hm
      exact_mod_cast hp
    have hws : (d : ℚ) ≤ (max w h : ℚ) := by exact_mod_cast hd
    have hs0 : 0 ≤ min 1 ((maxDim : ℚ) / (max w h : ℚ)) :=
      le_min (by norm_num) (div_nonneg (by positivity) (by positivity))
    calc (d : ℚ) * min 1 ((maxDim : ℚ) / (max w h : ℚ))
        ≤ (max w h : ℚ) * min 1 ((maxDim : ℚ) / (max w h : ℚ)) :=
          mul_le_mul_of_nonneg_right hws hs0
      _ ≤ (max w h : ℚ) * ((maxDim : ℚ) / (max w h : ℚ)) :=
          mul_le_mul_of_nonneg_left (min_le_right _ _) (le_of_lt hmaxpos)
      _ = (maxDim : ℚ) := by field_simp

/-- A scaled-and-floored dimension stays within `maxDim`. -/
theorem resizedDim_le_maxDim (maxDim w h d : Nat) (hmax : 1 ≤ maxDim)
    (hd : d ≤ max w h) :
    max 1 (Int.floor ((d : ℚ) * resizeScale maxDim w h)).toNat ≤ maxDim := by
  apply max_le hmax
  apply Int.toNat_le.mpr
  refine le_trans (Int.floor_le_floor (resize_dim_mul_le maxDim w h d hd)) ?_
  simp

/-- A scaled-and-floored dimension never exceeds the original (no
enlargement). -/
theorem resizedDim_le_orig (maxDim w h d : Nat) :
    max 1 (Int.floor ((d : ℚ) * resizeScale maxDim w h)).toNat ≤ max 1 d := by
  apply max_le (le_max_left 1 d)
  refine le_trans (Int.toNat_le.mpr ?_) (le_max_right 1 d)
  have h1 : (d : ℚ) * resizeScale maxDim w h ≤ (d : ℚ) := by
    calc (d : ℚ) * resizeScale maxDim w h
        ≤ (d : ℚ) * 1 :=
          mul_le_mul_of_nonneg_left (resizeScale_le_one maxDim w h) (by positivity)
      _ = (d : ℚ) := mul_one _
  refine le_trans (Int.floor_le_floor h1) ?_
  simp

end CTMRI

/-- C1 counterexample: on a decoded 1x1 image the spec's grayscale raster
(one byte) is rejected by the `ImageData` construction the caller feeds
it to at `Upload.tsx:59`, while the four-channel RGBA output the code's
normalizer delivers is accepted — so the claim that normalize returns the
flat `width*height` grayscale raster and the RGBA expansion happens only
at the rendering boundary is false on the code. -/
theorem C1_counterexample :
    CTMRI.normalizeSpecGrayscale CTMRI.c1params [7] = Except.ok [128] ∧
    CTMRI.mkImageData [128] 1 1 = none ∧
    CTMRI.normalizeDicomToGrayscale8 CTMRI.c1params [7] =
      Except.ok [128, 128, 128, 255] ∧
    CTMRI.mkImageData [128, 128, 128, 255] 1 1 =
      some { width := 1, height := 1, data := [128, 128, 128, 255] } :=
  ⟨CTMRI.c1eval_gray, rfl, CTMRI.c1eval_rgba, rfl⟩

/-- C1 (amended): the normalizer returns the 4-channel RGBA expansion of
the spec's grayscale raster — `4 * width * height` bytes with
R=G=B=value and A=255 for every pixel — and it is this buffer that the
`ImageData` construction at the rendering call site accepts; the
expansion happens inside normalize, not at the rendering boundary. -/
theorem C1_normalize_rgba (p : CTMRI.NormalizeParams) (bytes gray : List Nat)
    (h : CTMRI.normalizeSpecGrayscale p bytes = Except.ok gray) :
    CTMRI.normalizeDicomToGrayscale8 p bytes = Except.ok (CTMRI.rgbaExpand gray) ∧
    (CTMRI.rgbaExpand gray).length = 4 * gray.length ∧
    (∀ k g, gray.get? k = some g →
      (CTMRI.rgbaExpand gray).get? (4 * k) = some g ∧
      (CTMRI.rgbaExpand gray).get? (4 * k + 1) = some g ∧
      (CTMRI.rgbaExpand gray).get? (4 * k + 2) = some g ∧
      (CTMRI.rgbaExpand gray).get? (4 * k + 3) = some 255) ∧
    (gray.length = p.rows * p.columns → 0 < p.rows → 0 < p.columns →
      CTMRI.mkImageData (CTMRI.rgbaExpand gray) p.columns p.rows =
        some ⟨p.columns, p.rows, CTMRI.rgbaExpand gray⟩) := by
  refine ⟨?_, CTMRI.rgbaExpand_length gray, CTMRI.rgbaExpand_get_quad gray, ?_⟩
  · unfold CTMRI.normalizeDicomToGrayscale8
    rw [h]
    rfl
  · intro hlen hr hc
    unfold CTMRI.mkImageData
    rw [if_pos]
    refine ⟨?_, hc, hr⟩
    rw [CTMRI.rgbaExpand_length, hlen]
    ring

/-- C1 witness: at the concrete 1x1 input, the amended claim instantiates
to the RGBA output `[128,128,128,255]` and a successful `ImageData`
construction. -/
theorem C1_witness :
    CTMRI.normalizeDicomToGrayscale8 CTMRI.c1params [7] =
      Except.ok (CTMRI.rgbaExpand [128]) ∧
    CTMRI.mkImageData (CTMRI.rgbaExpand [128]) CTMRI.c1params.columns
      CTMRI.c1params.rows =
      some ⟨CTMRI.c1params.columns, CTMRI.c1params.rows, CTMRI.rgbaExpand [128]⟩ :=
  ⟨(C1_normalize_rgba CTMRI.c1params [7] [128] CTMRI.c1eval_gray).1,
    (C1_normalize_rgba CTMRI.c1params [7] [128] CTMRI.c1eval_gray).2.2.2 rfl
      (by decide) (by decide)⟩

/-- C4: normalizing the same input bytes under the same parameters with
photometricInterpretation MONOCHROME1 versus MONOCHROME2 yields
pixel-wise complementary grayscale rasters — the MONOCHROME1 run equals
the MONOCHROME2 run with every byte replaced by 255 minus it. -/
theorem C4_monochrome1_inversion (q : CTMRI.NormalizeParams) (bytes : List Nat) :
    CTMRI.normalizeSpecGrayscale
        { q with photometric := CTMRI.Photometric.monochrome1 } bytes =
      Except.map (List.map (fun g => 255 - g))
        (CTMRI.normalizeSpecGrayscale
          { q with photometric := CTMRI.Photometric.monochrome2 } bytes) := by
  unfold CTMRI.normalizeSpecGrayscale
  have hre : CTMRI.reinterpretSamples
      { q with photometric := CTMRI.Photometric.monochrome1 } bytes =
    CTMRI.reinterpretSamples
      { q with photometric := CTMRI.Photometric.monochrome2 } bytes := rfl
  rw [hre]
  cases CTMRI.reinterpretSamples
      { q with photometric := CTMRI.Photometric.monochrome2 } bytes with
  | error e => rfl
  | ok samples => rfl

/-- C5 counterexample: two decoded records that differ only in their
declared bit depth (8 versus 32) and signedness produce identical
argument objects at the normalizer call site `Upload.tsx:46-53` — so the
claimed bitsAllocated/pixelRepresentation parameters, and with them the
`UnsupportedBitDepthError` dispatch on widths outside {8,16}, cannot
reach the normalizer in this program. -/
theorem C5_counterexample :
    CTMRI.mkNormalizeCallArgs CTMRI.c5recA = CTMRI.mkNormalizeCallArgs CTMRI.c5recB ∧
    CTMRI.c5recA.bitsAllocated = 8 ∧ CTMRI.c5recB.bitsAllocated = 32 ∧
    CTMRI.c5recA.pixelRepresentationSigned ≠ CTMRI.c5recB.pixelRepresentationSigned :=
  ⟨rfl, rfl, rfl, by decide⟩

/-- C5 (amended): the normalizer is invoked with exactly rows, columns,
rescaleSlope, rescaleIntercept, windowCenter and windowWidth; any two
records agreeing on those six fields hand the normalizer identical
arguments, regardless of their bitsAllocated and pixelRepresentation. -/
theorem C5_callsite_args (r r' : CTMRI.DicomRecord)
    (h1 : r.rows = r'.rows) (h2 : r.columns = r'.columns)
    (h3 : r.rescaleSlope = r'.rescaleSlope)
    (h4 : r.rescaleIntercept = r'.rescaleIntercept)
    (h5 : r.windowCenter = r'.windowCenter)
    (h6 : r.windowWidth = r'.windowWidth) :
    CTMRI.mkNormalizeCallArgs r = CTMRI.mkNormalizeCallArgs r' := by
  simp [CTMRI.mkNormalizeCallArgs, h1, h2, h3, h4, h5, h6]

/-- C5 witness: the amended claim applied to the two concrete records of
differing bit depth. -/
theorem C5_witness :
    CTMRI.mkNormalizeCallArgs CTMRI.c5recA = CTMRI.mkNormalizeCallArgs CTMRI.c5recB :=
  C5_callsite_args CTMRI.c5recA CTMRI.c5recB rfl rfl rfl rfl rfl rfl

/-- C6: for every byte buffer, `isLikelyDicom` returns true iff the bytes at
offsets 128..131 equal the ASCII literal "DICM", and in particular it
returns false for every buffer shorter than 132 bytes. -/
theorem C6_isLikelyDicom_spec (b : List Nat) :
    (CTMRI.isLikelyDicom b = true ↔
      (b.get? 128 = some 68 ∧ b.get? 129 = some 73 ∧
        b.get? 130 = some 67 ∧ b.get? 131 = some 77)) ∧
    (b.length < 132 → CTMRI.isLikelyDicom b = false) := by
  have hiff : CTMRI.isLikelyDicom b = true ↔
      (b.get? 128 = some 68 ∧ b.get? 129 = some 73 ∧
        b.get? 130 = some 67 ∧ b.get? 131 = some 77) := by
    simp [CTMRI.isLikelyDicom, and_assoc]
  refine ⟨hiff, fun hlen => ?_⟩
  have h131 : b.get? 131 = none := by
    apply List.get?_eq_none.mpr
    omega
  cases h : CTMRI.isLikelyDicom b with
  | false => rfl
  | true =>
    have h4 := (hiff.mp h).2.2.2
    rw [h131] at h4
    exact Option.noConfusion h4

/-- C6 witness: the empty buffer (length 0 < 132) is not classified as
DICOM. -/
theorem C6_witness : CTMRI.isLikelyDicom [] = false :=
  (C6_isLikelyDicom_spec []).2 (by decide)

/-- C2: for every input buffer whose element scan completes, if the rows or
columns tags are absent or zero, or the pixel buffer is absent or too
small, decoding fails with `invalidDimensions` or `missingPixelData`
(rows = 0 or columns = 0 forces `invalidDimensions`), and no record is
returned to the caller. -/
theorem C2_decode_validation (buf : List Nat) (s : CTMRI.ScanState)
    (hm : CTMRI.isLikelyDicom buf = true)
    (hs : CTMRI.scanDicom buf = Except.ok s)
    (hbad : s.rows.getD 0 = 0 ∨ s.columns.getD 0 = 0 ∨ s.pixelData = none ∨
      (s.pixelData.getD []).length < CTMRI.requiredPixelBytes s) :
    (CTMRI.parseDicom buf = Except.error CTMRI.DecodeError.invalidDimensions ∨
      CTMRI.parseDicom buf = Except.error CTMRI.DecodeError.missingPixelData) ∧
    ((s.rows.getD 0 = 0 ∨ s.columns.getD 0 = 0) →
      CTMRI.parseDicom buf = Except.error CTMRI.DecodeError.invalidDimensions) ∧
    (∀ rec, CTMRI.parseDicom buf ≠ Except.ok rec) := by
  have hp : CTMRI.parseDicom buf = CTMRI.validateRecord s := by
    simp [CTMRI.parseDicom, hm, hs, Except.bind]
  by_cases hdim : s.rows.getD 0 = 0 ∨ s.columns.getD 0 = 0
  · have he : CTMRI.parseDicom buf = Except.error CTMRI.DecodeError.invalidDimensions := by
      rw [hp]
      unfold CTMRI.validateRecord
      rw [if_pos hdim]
    refine ⟨Or.inl he, fun _ => he, fun rec hrec => ?_⟩
    rw [he] at hrec
    exact Except.noConfusion hrec
  · have hpix : s.pixelData = none ∨
        (s.pixelData.getD []).length < CTMRI.requiredPixelBytes s := by
      rcases hbad with h | h | h | h
      · exact absurd (Or.inl h) hdim
      · exact absurd (Or.inr h) hdim
      · exact Or.inl h
      · exact Or.inr h
    have he : CTMRI.parseDicom buf = Except.error CTMRI.DecodeError.missingPixelData := by
      rw [hp]
      unfold CTMRI.validateRecord
      rw [if_neg hdim]
      cases hpd : s.pixelData with
      | none => rfl
      | some pd =>
        have hlt : pd.length < CTMRI.requiredPixelBytes s := by
          rcases hpix with h | h
          · rw [hpd] at h
            exact Option.noConfusion h
          · rw [hpd] at h
            exact h
        simp [hlt]
    refine ⟨Or.inr he, fun hd => absurd hd hdim, fun rec hrec => ?_⟩
    rw [he] at hrec
    exact Except.noConfusion hrec

set_option maxRecDepth 8000 in
/-- C2 witness: a buffer holding only the 128-byte preamble and the DICM
magic scans to the empty record and is rejected with
`invalidDimensions`. -/
theorem C2_witness :
    CTMRI.parseDicom (List.replicate 128 0 ++ [68, 73, 67, 77]) =
      Except.error CTMRI.DecodeError.invalidDimensions :=
  (C2_decode_validation (List.replicate 128 0 ++ [68, 73, 67, 77])
    CTMRI.initScanState (by decide) (by rfl)
    (Or.inl (by rfl))).2.1 (Or.inl (by rfl))

/-- C7 counterexample: with rescaleSlope -1 (and the default min/max
window) the stored samples 0 < 1 normalize to 255 and 0 — the larger
sample gets the strictly smaller output, so monotonicity as claimed fails
for negative slopes. -/
theorem C7_counterexample :
    CTMRI.reinterpretSamples CTMRI.c7neg [0, 1] = Except.ok [0, 1] ∧
    CTMRI.normalizeSpecGrayscale CTMRI.c7neg [0, 1] = Except.ok [255, 0] ∧
    (0 : Int) < 1 ∧ ¬ (255 : Nat) ≤ 0 := by
  refine ⟨rfl, ?_, by decide, by decide⟩
  norm_num [CTMRI.normalizeSpecGrayscale, CTMRI.reinterpretSamples, CTMRI.c7neg,
    CTMRI.toSamples8, CTMRI.grayscaleOfSamples, CTMRI.rescaleValue, CTMRI.windowOf,
    CTMRI.listMinQ, CTMRI.listMaxQ, CTMRI.mapValue, CTMRI.clampQ, CTMRI.roundByte,
    min_def, max_def, Except.map]
  decide

/-- C7 (amended): with the default (min/max-derived) window, a
non-inverting photometric interpretation and nonnegative rescaleSlope,
normalization preserves the stored-sample order: `sample_i < sample_j`
implies `normalized_i ≤ normalized_j`. -/
theorem C7_monotone_nonneg_slope (p : CTMRI.NormalizeParams) (bytes : List Nat)
    (samples : List Int) (out : List Nat) (i j : Nat) (si sj : Int) (oi oj : Nat)
    (hph : p.photometric = CTMRI.Photometric.monochrome2)
    (hslope : 0 ≤ p.rescaleSlope)
    (hwc : p.windowCenter = none)
    (hre : CTMRI.reinterpretSamples p bytes = Except.ok samples)
    (hnorm : CTMRI.normalizeSpecGrayscale p bytes = Except.ok out)
    (hsi : samples.get? i = some si) (hsj : samples.get? j = some sj)
    (hij : si < sj)
    (hoi : out.get? i = some oi) (hoj : out.get? j = some oj) :
    oi ≤ oj := by
  have hout : out = CTMRI.grayscaleOfSamples p samples := by
    unfold CTMRI.normalizeSpecGrayscale at hnorm
    rw [hre] at hnorm
    exact (Except.ok.inj hnorm).symm
  have hgray : CTMRI.grayscaleOfSamples p samples =
      (samples.map (CTMRI.rescaleValue p)).map
        (fun v => CTMRI.mapValue
          (CTMRI.windowOf p (samples.map (CTMRI.rescaleValue p))).1
          (CTMRI.windowOf p (samples.map (CTMRI.rescaleValue p))).2 v) := by
    unfold CTMRI.grayscaleOfSamples
    rw [hph]
  rw [hout, hgray] at hoi hoj
  rw [List.get?_map, List.get?_map, hsi] at hoi
  rw [List.get?_map, List.get?_map, hsj] at hoj
  simp only [Option.map_some', Option.some.injEq] at hoi hoj
  rw [← hoi, ← hoj]
  apply CTMRI.mapValue_mono
  · exact CTMRI.windowOf_default_pos p _ hwc
  · unfold CTMRI.rescaleValue
    have hcast : (si : ℚ) ≤ (sj : ℚ) := by exact_mod_cast hij.le
    have := mul_le_mul_of_nonneg_right hcast hslope
    linarith

/-- C7 witness: the spec's section-8 scenario (slope 2, intercept -50,
derived window) on samples 0 < 200 yields 0 ≤ 255 via the amended
theorem. -/
theorem C7_witness :
    CTMRI.reinterpretSamples CTMRI.c7pos [0, 200] = Except.ok [0, 200] ∧
    CTMRI.normalizeSpecGrayscale CTMRI.c7pos [0, 200] = Except.ok [0, 255] ∧
    (0 : Nat) ≤ 255 := by
  have h1 : CTMRI.reinterpretSamples CTMRI.c7pos [0, 200] = Except.ok [0, 200] := rfl
  have h2 : CTMRI.normalizeSpecGrayscale CTMRI.c7pos [0, 200] = Except.ok [0, 255] := by
    norm_num [CTMRI.normalizeSpecGrayscale, CTMRI.reinterpretSamples, CTMRI.c7pos,
      CTMRI.toSamples8, CTMRI.grayscaleOfSamples, CTMRI.rescaleValue, CTMRI.windowOf,
      CTMRI.listMinQ, CTMRI.listMaxQ, CTMRI.mapValue, CTMRI.clampQ, CTMRI.roundByte,
      min_def, max_def, Except.map]
    decide
  exact ⟨h1, h2,
    C7_monotone_nonneg_slope CTMRI.c7pos [0, 200] [0, 200] [0, 255] 0 1 0 200 0 255
      rfl (by norm_num [CTMRI.c7pos]) rfl h1 h2 rfl rfl (by decide) rfl rfl⟩

/-- C3: for every weight configuration and every feature vector, the
classifier's probabilities sum to exactly 1 (hence within any tolerance)
and the label is CT exactly when probabilityCT is at least 1/2 — so a tie
at exactly 1/2 resolves to CT; as a total function of its arguments the
classifier never fails. -/
theorem C3_classifier_invariants (w : Fin 5 → ℝ) (bias : ℝ) (f : Fin 5 → ℝ) :
    (CTMRI.classifyFeatures w bias f).probabilityCT +
      (CTMRI.classifyFeatures w bias f).probabilityMRI = 1 ∧
    ((CTMRI.classifyFeatures w bias f).label = CTMRI.Label.CT ↔
      1 / 2 ≤ (CTMRI.classifyFeatures w bias f).probabilityCT) := by
  unfold CTMRI.classifyFeatures
  constructor
  · ring
  · dsimp only
    split_ifs with h
    · simpa using h
    · simpa using lt_of_not_le h

/-- C8: the core pipeline (decode, normalize, extract, classify) is a pure
function of the input bytes — two runs on identical byte buffers return
identical results, for every weight configuration. -/
theorem C8_pipeline_deterministic (w : Fin 5 → ℝ) (bias : ℝ) (b1 b2 : List Nat)
    (h : b1 = b2) :
    CTMRI.corePipeline w bias b1 = CTMRI.corePipeline w bias b2 := by
  rw [h]

/-- C8 witness: two runs on the same concrete buffer agree. -/
theorem C8_witness :
    CTMRI.corePipeline (fun _ => 0) 0 [0, 1, 2] =
      CTMRI.corePipeline (fun _ => 0) 0 [0, 1, 2] :=
  C8_pipeline_deterministic (fun _ => 0) 0 [0, 1, 2] [0, 1, 2] rfl

/-- C9: the result handed to the presentation layer is the classification
plus a metadata map of exactly the nine fields modality, transferSyntax,
rows, columns, windowCenter, windowWidth, rescaleSlope, rescaleIntercept
and frames; the classification component equals the classifier applied to
the features of the analyzed raster alone, so it is unchanged under any
change of the record's metadata (the modality string included). -/
theorem C9_result_shape (w : Fin 5 → ℝ) (bias : ℝ)
    (info info' : CTMRI.DicomRecord) (analyzed : CTMRI.ImageDataM) :
    (CTMRI.buildDicomResult w bias info analyzed).meta = CTMRI.metaOf info ∧
    CTMRI.metaOf info =
      { modality := info.modality, tsUID := info.tsUID, rows := info.rows,
        columns := info.columns, windowCenter := info.windowCenter,
        windowWidth := info.windowWidth, rescaleSlope := info.rescaleSlope,
        rescaleIntercept := info.rescaleIntercept,
        frames := info.numberOfFrames } ∧
    (CTMRI.buildDicomResult w bias info analyzed).label =
      (CTMRI.classifyFeatures w bias
        (CTMRI.computeFeaturesFromImageData analyzed)).label ∧
    (CTMRI.buildDicomResult w bias info analyzed).probabilityCT =
      (CTMRI.buildDicomResult w bias info' analyzed).probabilityCT ∧
    (CTMRI.buildDicomResult w bias info analyzed).probabilityMRI =
      (CTMRI.buildDicomResult w bias info' analyzed).probabilityMRI ∧
    (CTMRI.buildDicomResult w bias info analyzed).label =
      (CTMRI.buildDicomResult w bias info' analyzed).label :=
  ⟨rfl, rfl, rfl, rfl, rfl, rfl⟩

/-- C10: the raster analyzed by the feature extractor has dimensions of at
least 1 on both paths, the DICOM path is bounded by 512 pixels per side
and the generic-image path by 768, the scale factor never exceeds 1, and
neither dimension is ever enlarged. -/
theorem C10_resize_bounds (w h : Nat) :
    CTMRI.resizeScale 512 w h ≤ 1 ∧ CTMRI.resizeScale 768 w h ≤ 1 ∧
    1 ≤ CTMRI.resizedWidth 512 w h ∧ 1 ≤ CTMRI.resizedHeight 512 w h ∧
    1 ≤ CTMRI.resizedWidth 768 w h ∧ 1 ≤ CTMRI.resizedHeight 768 w h ∧
    CTMRI.resizedWidth 512 w h ≤ 512 ∧ CTMRI.resizedHeight 512 w h ≤ 512 ∧
    CTMRI.resizedWidth 768 w h ≤ 768 ∧ CTMRI.resizedHeight 768 w h ≤ 768 ∧
    CTMRI.resizedWidth 512 w h ≤ max 1 w ∧
    CTMRI.resizedHeight 512 w h ≤ max 1 h ∧
    CTMRI.resizedWidth 768 w h ≤ max 1 w ∧
    CTMRI.resizedHeight 768 w h ≤ max 1 h := by
  refine ⟨CTMRI.resizeScale_le_one 512 w h, CTMRI.resizeScale_le_one 768 w h,
    le_max_left 1 _, le_max_left 1 _, le_max_left 1 _, le_max_left 1 _,
    ?_, ?_, ?_, ?_, ?_, ?_, ?_, ?_⟩
  · exact CTMRI.resizedDim_le_maxDim 512 w h w (by norm_num) (le_max_left w h)
  · exact CTMRI.resizedDim_le_maxDim 512 w h h (by norm_num) (le_max_right w h)
  · exact CTMRI.resizedDim_le_maxDim 768 w h w (by norm_num) (le_max_left w h)
  · exact CTMRI.resizedDim_le_maxDim 768 w h h (by norm_num) (le_max_right w h)
  · exact CTMRI.resizedDim_le_orig 512 w h w
  · exact CTMRI.resizedDim_le_orig 512 w h h
  · exact CTMRI.resizedDim_le_orig 768 w h w
  · exact CTMRI.resizedDim_le_orig 768 w h h
